import Mathlib

/-!
Verification of the consciousness-core arbitration subsystem
(src/server/consciousness): the global workspace store, the temporal
event store, and the orchestration state machine.

Python floats are modelled exactly as rationals (ℚ); wall-clock readings
(`time.time() * 1000`, `datetime.now()`) are passed in explicitly as
millisecond counts (`Nat`), one per clock read.  Python dicts are modelled
as association lists with Python's semantics: assignment to an existing key
overwrites in place, assignment to a new key appends (insertion order is
preserved, as in CPython).  Opaque payload dicts are modelled by the only
datum the code consumes from them, their key count.
-/

/-- Embeds `AttentionLevel` (global_workspace.py): levels of attention in the
global workspace, in Python declaration order. -/
inductive AttentionLevel
  | background
  | peripheral
  | focused
  | conscious
deriving DecidableEq, Repr

/-- Embeds `TemporalScale` (temporal_consciousness.py). -/
inductive TemporalScale
  | immediate
  | short_term
  | medium_term
  | long_term
  | existential
deriving DecidableEq, Repr

/-- Python dict assignment `d[k] = v`: overwrite in place when the key is
present (keeping its position), else append at the end. -/
def dictInsert {α β : Type} [DecidableEq α] : List (α × β) → α → β → List (α × β)
  | [], k, v => [(k, v)]
  | (k', v') :: rest, k, v =>
    if k' = k then (k, v) :: rest else (k', v') :: dictInsert rest k v

/-- Python `d.get(k)`: the value stored under `k`, if any. -/
def dictGet {α β : Type} [DecidableEq α] : List (α × β) → α → Option β
  | [], _ => none
  | (k', v') :: rest, k => if k' = k then some v' else dictGet rest k

/-- Embeds the `WorkspaceContent` dataclass (global_workspace.py).  The id
string `content_{ms}` is modelled by the millisecond count `ms` itself; the
opaque payload dict by its key count (`dataSize`), the only datum read from
it; the `datetime` timestamp by the same millisecond clock reading. -/
structure WorkspaceContent where
  content_id : Nat
  source_module : String
  content_type : String
  dataSize : Nat
  attention_level : AttentionLevel
  timestamp : Nat
  priority : ℚ
  coherence_score : ℚ
deriving DecidableEq, Repr

/-- Embeds the mutable state of `GlobalWorkspaceSystem` (global_workspace.py):
the contents dict, module-connection dict, attention-focus list, the four
consciousness metrics, and the initialized flag (`inited` here). -/
structure GlobalWorkspaceSystem where
  workspace_contents : List (Nat × WorkspaceContent)
  module_connections : List (String × ℚ)
  attention_focus : List Nat
  coherence_level : ℚ
  integration_depth : ℚ
  attention_stability : ℚ
  content_richness : ℚ
  inited : Bool
deriving DecidableEq, Repr

/-- The state built by `GlobalWorkspaceSystem.__init__`. -/
def initialGWS : GlobalWorkspaceSystem :=
  ⟨[], [], [], 0, 0, 0, 0, false⟩

/-- The module list of `_initialize_module_connections`. -/
def moduleList : List String :=
  ["temporal_consciousness", "social_cognition", "creative_intelligence",
   "value_learning", "virtue_learning", "embodied_cognition",
   "intrinsic_motivation", "autonomous_goals", "recursive_self_improvement"]

/-- Embeds `_initialize_module_connections`: sets each listed module's
connection strength to 0.8 in the existing dict. -/
def initModuleConnections (conns : List (String × ℚ)) : List (String × ℚ) :=
  moduleList.foldl (fun acc m => dictInsert acc m (4/5)) conns

/-- Embeds `GlobalWorkspaceSystem.initialize` (the method body cannot raise in
the embedded fragment, so it always returns True): refresh the module
connections and set the initialized flag.  It does not touch
`workspace_contents`, `attention_focus` or the metrics. -/
def GlobalWorkspaceSystem.initSystem (s : GlobalWorkspaceSystem) : GlobalWorkspaceSystem :=
  { s with module_connections := initModuleConnections s.module_connections, inited := true }

/-- Embeds `_calculate_coherence`: richness is `min(1, |data| / 10)`; the
module strength defaults to 0.5 for unknown producers. -/
def calculateCoherence (conns : List (String × ℚ)) (dataSize : Nat) (source_module : String) : ℚ :=
  let data_richness : ℚ := min 1 ((dataSize : ℚ) / 10)
  let module_strength : ℚ := (dictGet conns source_module).getD (1/2)
  (data_richness + module_strength) / 2

/-- Embeds `_determine_attention_level`: strict thresholds on the combined
score `(priority + coherence) / 2`. -/
def determineAttentionLevel (priority coherence_score : ℚ) : AttentionLevel :=
  let combined_score := (priority + coherence_score) / 2
  if combined_score > 4/5 then .conscious
  else if combined_score > 3/5 then .focused
  else if combined_score > 2/5 then .peripheral
  else .background

/-- Embeds the for-loop of `_update_attention_focus`: walk the focus list and
insert the new id before the first entry that resolves to a content of
strictly lower priority; entries that do not resolve are skipped; if no such
entry exists the id is appended. -/
def insertByPriority (contents : List (Nat × WorkspaceContent)) (p : ℚ) (cid : Nat) :
    List Nat → List Nat
  | [] => [cid]
  | x :: xs =>
    match dictGet contents x with
    | some ec =>
        if p > ec.priority then cid :: x :: xs else x :: insertByPriority contents p cid xs
    | none => x :: insertByPriority contents p cid xs

/-- Embeds `_update_attention_focus`: look the id up (return unchanged when
absent), drop a previous occurrence of the id, insert at the head when the
content is Conscious and by the priority scan otherwise, then truncate to 50
entries when the list exceeds 50. -/
def updateAttentionFocus (contents : List (Nat × WorkspaceContent))
    (focus : List Nat) (cid : Nat) : List Nat :=
  match dictGet contents cid with
  | none => focus
  | some content =>
    let focus1 := focus.erase cid
    let focus2 :=
      if content.attention_level = .conscious then cid :: focus1
      else insertByPriority contents content.priority cid focus1
    if 50 < focus2.length then focus2.take 50 else focus2

/-- Embeds `GlobalWorkspaceSystem.add_content`: build the content with the
clock-derived id, store it (dict assignment), update the focus ordering, and
return the new id.  No branch raises in the embedded fragment, so the
except-branch returning `""` is dead and the id is always returned. -/
def GlobalWorkspaceSystem.add_content (s : GlobalWorkspaceSystem) (tms : Nat)
    (source_module content_type : String) (dataSize : Nat) (priority : ℚ) :
    Nat × GlobalWorkspaceSystem :=
  let content_id := tms
  let coherence_score := calculateCoherence s.module_connections dataSize source_module
  let attention_level := determineAttentionLevel priority coherence_score
  let content : WorkspaceContent :=
    ⟨content_id, source_module, content_type, dataSize, attention_level, tms,
      priority, coherence_score⟩
  let contents := dictInsert s.workspace_contents content_id content
  let focus := updateAttentionFocus contents s.attention_focus content_id
  (content_id, { s with workspace_contents := contents, attention_focus := focus })

/-- Embeds `get_conscious_contents`: the values of the contents dict, in
insertion order, filtered to the Conscious level. -/
def GlobalWorkspaceSystem.consciousContents (s : GlobalWorkspaceSystem) : List WorkspaceContent :=
  (s.workspace_contents.map Prod.snd).filter (fun c => c.attention_level = .conscious)

/-- Embeds `_update_consciousness_metrics` (`nowMs` is the `datetime.now()`
reading): early return when the contents dict is empty; `coherence_level` is
assigned (to the mean conscious coherence) only when Conscious contents
exist; `attention_stability` is assigned only when the focus list is
nonempty, from the ages in seconds of the top-5 resolvable focus entries. -/
def GlobalWorkspaceSystem.updateConsciousnessMetrics (s : GlobalWorkspaceSystem)
    (nowMs : Nat) : GlobalWorkspaceSystem :=
  if s.workspace_contents = [] then s
  else
    let contents := s.workspace_contents.map Prod.snd
    let conscious_contents := contents.filter (fun c => c.attention_level = .conscious)
    let new_coherence_level :=
      if conscious_contents.isEmpty then s.coherence_level
      else (conscious_contents.map (fun c => c.coherence_score)).sum /
             (conscious_contents.length : ℚ)
    let unique_modules := (conscious_contents.map (fun c => c.source_module)).dedup
    let new_integration_depth := min 1 ((unique_modules.length : ℚ) / 10)
    let new_attention_stability :=
      if s.attention_focus.isEmpty then s.attention_stability
      else
        let focus_ages := (s.attention_focus.take 5).filterMap
          (fun cid => (dictGet s.workspace_contents cid).map
            (fun c => ((nowMs : ℚ) - (c.timestamp : ℚ)) / 1000))
        let avg_age := if focus_ages.isEmpty then 0
          else focus_ages.sum / (focus_ages.length : ℚ)
        min 1 (avg_age / 300)
    let content_types := (contents.map (fun c => c.content_type)).dedup
    { s with
        coherence_level := new_coherence_level
        integration_depth := new_integration_depth
        attention_stability := new_attention_stability
        content_richness := min 1 ((content_types.length : ℚ) / 15) }

/-- The view built by `get_workspace_state`: the four metrics, the content
ids grouped by attention level, the top-10 focus ids, and the total content
count (`totalItems` in the spec's Snapshot). -/
structure WorkspaceState where
  coherence_level : ℚ
  integration_depth : ℚ
  attention_stability : ℚ
  content_richness : ℚ
  contents_by_attention : List (AttentionLevel × List Nat)
  attention_focus_top : List Nat
  total_contents : Nat
deriving DecidableEq, Repr

/-- Enumeration order of `AttentionLevel` in Python. -/
def levelsList : List AttentionLevel :=
  [.background, .peripheral, .focused, .conscious]

/-- Embeds `get_workspace_state` (the Snapshot of the spec): an error (`none`)
when not initialized; otherwise the metrics are recomputed in place (the
mutation persists in the returned state) and the grouped view is built. -/
def GlobalWorkspaceSystem.get_workspace_state (s : GlobalWorkspaceSystem) (nowMs : Nat) :
    Option WorkspaceState × GlobalWorkspaceSystem :=
  if s.inited = true then
    let s1 := s.updateConsciousnessMetrics nowMs
    (some
      { coherence_level := s1.coherence_level
        integration_depth := s1.integration_depth
        attention_stability := s1.attention_stability
        content_richness := s1.content_richness
        contents_by_attention := levelsList.map (fun lv =>
          (lv, ((s1.workspace_contents.map Prod.snd).filter
                  (fun c => c.attention_level = lv)).map (fun c => c.content_id)))
        attention_focus_top := s1.attention_focus.take 10
        total_contents := s1.workspace_contents.length }, s1)
  else (none, s)

/-- Embeds the `TemporalEvent` dataclass (temporal_consciousness.py).  The id
string `temporal_event_{ms}` is modelled by the millisecond count, the
timestamp by the same clock reading, the opaque `narrative_context` dict by
its key list (never consumed). -/
structure TemporalEvent where
  event_id : Nat
  timestamp : Nat
  event_type : String
  description : String
  significance : ℚ
  emotional_valence : ℚ
  causal_relations : List Nat
  narrative_context : List String
  memory_strength : ℚ
  temporal_scale : TemporalScale
deriving DecidableEq, Repr

/-- The `scale_factors` dict of `calculate_temporal_distance`; it covers every
enum member, so the 3600 default of `.get` is unreachable. -/
def scaleFactor : TemporalScale → ℚ
  | .immediate => 1
  | .short_term => 3600
  | .medium_term => 86400
  | .long_term => 2592000
  | .existential => 31536000

/-- Embeds `TemporalEvent.calculate_temporal_distance`: absolute difference in
seconds, normalized by the per-scale divisor, clamped above by 1. -/
def TemporalEvent.calculate_temporal_distance (e : TemporalEvent) (referenceMs : Nat) : ℚ :=
  let time_diff : ℚ := |(e.timestamp : ℚ) - (referenceMs : ℚ)| / 1000
  let normalized_distance := time_diff / scaleFactor e.temporal_scale
  min 1 normalized_distance

/-- The relevance score of `is_temporally_relevant`:
`(significance * memory_strength) / (1 + temporal_distance)`. -/
def relevanceScore (significance memory_strength temporal_distance : ℚ) : ℚ :=
  (significance * memory_strength) / (1 + temporal_distance)

/-- The relevance predicate of `is_temporally_relevant`: strictly above the
threshold (Python default 0.5). -/
def isRelevant (significance memory_strength temporal_distance relevance_threshold : ℚ) : Bool :=
  relevanceScore significance memory_strength temporal_distance > relevance_threshold

/-- Embeds `TemporalEvent.is_temporally_relevant`. -/
def TemporalEvent.is_temporally_relevant (e : TemporalEvent) (referenceMs : Nat)
    (relevance_threshold : ℚ) : Bool :=
  isRelevant e.significance e.memory_strength
    (e.calculate_temporal_distance referenceMs) relevance_threshold

/-- The experience dict consumed by `process_temporal_experience` and
`_determine_temporal_scale`, modelled by the keys those methods read
(`none` = key absent, the Python `.get` default applies). -/
structure ExperienceData where
  etype : Option String
  description : Option String
  emotional_valence : Option ℚ
  causal_relations : Option (List Nat)
  narrative_context : Option (List String)
  temporal_scale : Option TemporalScale
deriving DecidableEq, Repr

/-- Embeds `_determine_temporal_scale`: the explicit key wins, else the
default mapping on the experience type. -/
def determineTemporalScale (d : ExperienceData) : TemporalScale :=
  match d.temporal_scale with
  | some sc => sc
  | none =>
    let exp_type := d.etype.getD "experience"
    if exp_type = "initialization" ∨ exp_type = "identity_formation" then .existential
    else if exp_type = "learning" ∨ exp_type = "goal_formation" then .long_term
    else if exp_type = "interaction" ∨ exp_type = "decision" then .medium_term
    else .short_term

/-- Embeds the mutable state of `TemporalConsciousnessSystem`: the events
dict, the (never-populated) narrative and projection dicts modelled by their
key lists, the present-moment fields that ever change (`current_time`,
`ongoing_experiences`), the metrics that ever change (`events_processed`,
`temporal_coherence`, `autobiographical_continuity`, `future_planning_depth`,
`identity_coherence`), and the initialized flag (`inited`). -/
structure TemporalConsciousnessSystem where
  temporal_events : List (Nat × TemporalEvent)
  narrative_structures : List Nat
  temporal_projections : List Nat
  current_time : Nat
  ongoing_experiences : List Nat
  events_processed : Nat
  temporal_coherence : ℚ
  autobiographical_continuity : ℚ
  future_planning_depth : ℚ
  identity_coherence : ℚ
  inited : Bool
deriving DecidableEq, Repr

/-- The state built by `TemporalConsciousnessSystem.__init__` (the
construction-time `datetime.now()` is modelled as clock reading 0). -/
def initialTCS : TemporalConsciousnessSystem :=
  ⟨[], [], [], 0, [], 0, 0, 0, 0, 0, false⟩

/-- Embeds `process_temporal_experience` at clock reading `tms`: build the
event with `memory_strength = 1.0`, store it (dict assignment), bump
`events_processed`, refresh `current_time` and append to
`ongoing_experiences`, and return the new id.  The Python default for
`significance` is 0.5; it is always passed explicitly here. -/
def TemporalConsciousnessSystem.process_temporal_experience
    (t : TemporalConsciousnessSystem) (tms : Nat) (d : ExperienceData)
    (significance : ℚ) : Nat × TemporalConsciousnessSystem :=
  let event_id := tms
  let temporal_event : TemporalEvent :=
    { event_id := event_id
      timestamp := tms
      event_type := d.etype.getD "experience"
      description := d.description.getD ("Temporal experience: temporal_event_" ++ toString tms)
      significance := significance
      emotional_valence := d.emotional_valence.getD 0
      causal_relations := d.causal_relations.getD []
      narrative_context := d.narrative_context.getD []
      memory_strength := 1
      temporal_scale := determineTemporalScale d }
  (event_id,
    { t with
        temporal_events := dictInsert t.temporal_events event_id temporal_event
        events_processed := t.events_processed + 1
        current_time := tms
        ongoing_experiences := t.ongoing_experiences ++ [event_id] })

/-- First foundational experience dict of `_create_foundational_events`. -/
def foundationalData1 : ExperienceData :=
  ⟨some "initialization",
   some "System initialization and beginning of consciousness",
   none, none, none, some .existential⟩

/-- Second foundational experience dict of `_create_foundational_events`. -/
def foundationalData2 : ExperienceData :=
  ⟨some "first_awareness",
   some "First moment of temporal awareness",
   none, none, none, some .long_term⟩

/-- Third foundational experience dict of `_create_foundational_events`. -/
def foundationalData3 : ExperienceData :=
  ⟨some "identity_formation_start",
   some "Beginning of identity formation process",
   none, none, none, some .long_term⟩

/-- Embeds `_create_foundational_events`: three `process_temporal_experience`
calls with the listed significances, at clock readings `t1 t2 t3`. -/
def TemporalConsciousnessSystem.createFoundationalEvents
    (t : TemporalConsciousnessSystem) (t1 t2 t3 : Nat) : TemporalConsciousnessSystem :=
  let s1 := (t.process_temporal_experience t1 foundationalData1 1).2
  let s2 := (s1.process_temporal_experience t2 foundationalData2 (9/10)).2
  (s2.process_temporal_experience t3 foundationalData3 (4/5)).2

/-- Embeds `TemporalConsciousnessSystem.initialize` (cannot raise in the
embedded fragment, so it always returns True): `_initialize_present_moment`
resets the present-moment fields (`current_time := nowMs`,
`ongoing_experiences := []`), then the three foundational events are created
at clock readings `t1 t2 t3`, then the initialized flag is set.  The
`temporal_events` dict is NOT cleared. -/
def TemporalConsciousnessSystem.initSystem (t : TemporalConsciousnessSystem)
    (nowMs t1 t2 t3 : Nat) : TemporalConsciousnessSystem :=
  let t0 := { t with current_time := nowMs, ongoing_experiences := [] }
  { t0.createFoundationalEvents t1 t2 t3 with inited := true }

/-- One step of Python's stable `sorted(..., key=timestamp, reverse=True)`:
insert before the first strictly-older element, so later-processed elements
land after equal timestamps (stability). -/
def insertTsDesc (acc : List TemporalEvent) (e : TemporalEvent) : List TemporalEvent :=
  match acc with
  | [] => [e]
  | x :: xs => if x.timestamp < e.timestamp then e :: x :: xs else x :: insertTsDesc xs e

/-- Python's stable descending-by-timestamp sort of the event values. -/
def sortByTimestampDesc (l : List TemporalEvent) : List TemporalEvent :=
  l.foldl insertTsDesc []

/-- The `recent_events` computation of `get_temporal_consciousness_state`:
values sorted by timestamp descending, first 20. -/
def TemporalConsciousnessSystem.recentEvents (t : TemporalConsciousnessSystem) :
    List TemporalEvent :=
  (sortByTimestampDesc (t.temporal_events.map Prod.snd)).take 20

/-- Embeds `_update_temporal_metrics`: early return when no events;
`temporal_coherence` is assigned (to the mean significance of events less
than 3600 seconds old) only when such events exist; the three count-based
metrics are always refreshed. -/
def TemporalConsciousnessSystem.updateTemporalMetrics (t : TemporalConsciousnessSystem)
    (nowMs : Nat) : TemporalConsciousnessSystem :=
  if t.temporal_events = [] then t
  else
    let recent := (t.temporal_events.map Prod.snd).filter
      (fun e => ((nowMs : ℚ) - (e.timestamp : ℚ)) / 1000 < 3600)
    let new_temporal_coherence :=
      if recent.isEmpty then t.temporal_coherence
      else (recent.map (fun e => e.significance)).sum / (recent.length : ℚ)
    { t with
        temporal_coherence := new_temporal_coherence
        autobiographical_continuity := min 1 ((t.temporal_events.length : ℚ) / 100)
        future_planning_depth := min 1 ((t.temporal_projections.length : ℚ) / 50)
        identity_coherence := min 1 ((t.narrative_structures.length : ℚ) / 20) }

/-- Embeds `get_temporal_consciousness_state` (the RecentEvents query of the
spec): an error (`none`) when not initialized; otherwise the metrics are
recomputed in place and the recent-events sequence is returned. -/
def TemporalConsciousnessSystem.getState (t : TemporalConsciousnessSystem) (nowMs : Nat) :
    Option (List TemporalEvent) × TemporalConsciousnessSystem :=
  if t.inited = true then
    let t1 := t.updateTemporalMetrics nowMs
    (some t1.recentEvents, t1)
  else (none, t)

/-- Embeds the `system_status` string field of `ConsciousnessCore`
(`'inactive' | 'active' | 'paused' | 'error' | 'emergency_stop'`). -/
inductive SystemStatus
  | inactive
  | active
  | paused
  | error
  | emergency_stop
deriving DecidableEq, Repr

/-- Embeds the state of `ConsciousnessCore` (consciousness_core.py) restricted
to the two stores the claims observe plus the orchestration flags.  The five
other modules (social cognition, creative intelligence, value learning,
virtue learning, safety monitor) hold no state any claim observes and their
`initialize` methods return True, so they are not carried. -/
structure ConsciousnessCore where
  temporal_consciousness : TemporalConsciousnessSystem
  global_workspace : GlobalWorkspaceSystem
  system_status : SystemStatus
  inited : Bool
deriving DecidableEq, Repr

/-- The state built by `ConsciousnessCore.__init__`. -/
def initialCore : ConsciousnessCore :=
  ⟨initialTCS, initialGWS, .inactive, false⟩

/-- Embeds `ConsciousnessCore.initialize`: every module's `initialize`
succeeds in the embedded fragment, so the status becomes `active` and the
initialized flag is set.  The module `initialize` methods do not clear any
store.  `nowMs t1 t2 t3` are the clock readings consumed by the temporal
module's re-initialization. -/
def ConsciousnessCore.initSystem (c : ConsciousnessCore) (nowMs t1 t2 t3 : Nat) :
    Bool × ConsciousnessCore :=
  let tc := c.temporal_consciousness.initSystem nowMs t1 t2 t3
  let gw := c.global_workspace.initSystem
  (true,
    { c with
        temporal_consciousness := tc
        global_workspace := gw
        system_status := .active
        inited := true })

/-- Embeds `ConsciousnessCore.emergency_stop`: the status becomes
`emergency_stop` and monitoring stops.  Neither `GlobalWorkspaceSystem` nor
`TemporalConsciousnessSystem` defines a `cleanup` method, so the per-module
cleanup loop leaves both stores untouched. -/
def ConsciousnessCore.emergencyStop (c : ConsciousnessCore) : Bool × ConsciousnessCore :=
  (true, { c with system_status := .emergency_stop })

/-- Embeds `ConsciousnessCore.pause_system`. -/
def ConsciousnessCore.pauseSystem (c : ConsciousnessCore) : Bool × ConsciousnessCore :=
  (true, { c with system_status := .paused })

/-- Embeds `ConsciousnessCore.resume_system`: from `emergency_stop` the system
is forced through `initialize` (the clock readings are consumed there);
otherwise the status simply becomes `active`. -/
def ConsciousnessCore.resumeSystem (c : ConsciousnessCore) (nowMs t1 t2 t3 : Nat) :
    Bool × ConsciousnessCore :=
  if c.system_status = .emergency_stop then c.initSystem nowMs t1 t2 t3
  else (true, { c with system_status := .active })

/-- The observable outcome of `ConsciousnessCore.process_experience`:
the early guard's error dict, or the error dict produced when the call
`self.global_workspace.update_workspace(...)` raises `AttributeError`
(no such method exists on `GlobalWorkspaceSystem`), after the temporal
event was already recorded. -/
inductive ProcessResult
  | notActive
  | errorAfterTemporal (temporal_event_id : Nat)
deriving DecidableEq, Repr

/-- Embeds `ConsciousnessCore.process_experience` (the Ingest of the spec):
when the system is not initialized or not `active`, return the
`System not active` error without touching any module; otherwise the
temporal module records the experience (Python default significance 0.5),
and then the `update_workspace` call raises `AttributeError` — caught by the
handler, which returns an error dict; the temporal mutation persists and the
workspace store is untouched. -/
def ConsciousnessCore.process_experience (c : ConsciousnessCore) (tms : Nat)
    (d : ExperienceData) : ProcessResult × ConsciousnessCore :=
  if c.inited = false ∨ c.system_status ≠ .active then (.notActive, c)
  else
    let r := c.temporal_consciousness.process_temporal_experience tms d (1/2)
    (.errorAfterTemporal r.1, { c with temporal_consciousness := r.2 })

/-- States of the workspace store reachable through its public operations
(construction, `initialize`, `add_content`, `get_workspace_state`), with the
clock readings free. -/
inductive GlobalWorkspaceSystem.Reachable : GlobalWorkspaceSystem → Prop
  | empty : Reachable initialGWS
  | initStep {s : GlobalWorkspaceSystem} : Reachable s → Reachable s.initSystem
  | addStep {s : GlobalWorkspaceSystem} (tms : Nat) (source_module content_type : String)
      (dataSize : Nat) (priority : ℚ) :
      Reachable s → Reachable (s.add_content tms source_module content_type dataSize priority).2
  | snapStep {s : GlobalWorkspaceSystem} (nowMs : Nat) :
      Reachable s → Reachable (s.get_workspace_state nowMs).2

/-- Reachable workspace states in which every admission carried a fresh
clock-derived id (no two admissions in the same millisecond). -/
inductive GlobalWorkspaceSystem.ReachableFresh : GlobalWorkspaceSystem → Prop
  | empty : ReachableFresh initialGWS
  | initStep {s : GlobalWorkspaceSystem} : ReachableFresh s → ReachableFresh s.initSystem
  | addStep {s : GlobalWorkspaceSystem} (tms : Nat) (source_module content_type : String)
      (dataSize : Nat) (priority : ℚ) :
      dictGet s.workspace_contents tms = none →
      ReachableFresh s →
      ReachableFresh (s.add_content tms source_module content_type dataSize priority).2
  | snapStep {s : GlobalWorkspaceSystem} (nowMs : Nat) :
      ReachableFresh s → ReachableFresh (s.get_workspace_state nowMs).2

/-- States of the temporal store reachable through its public operations. -/
inductive TemporalConsciousnessSystem.Reachable : TemporalConsciousnessSystem → Prop
  | empty : Reachable initialTCS
  | initStep {t : TemporalConsciousnessSystem} (nowMs t1 t2 t3 : Nat) :
      Reachable t → Reachable (t.initSystem nowMs t1 t2 t3)
  | processStep {t : TemporalConsciousnessSystem} (tms : Nat) (d : ExperienceData) (sig : ℚ) :
      Reachable t → Reachable (t.process_temporal_experience tms d sig).2
  | getStep {t : TemporalConsciousnessSystem} (nowMs : Nat) :
      Reachable t → Reachable (t.getState nowMs).2

/-- Spec-side scan predicate for the amended focus-insertion rule: entry `x`
does not yet admit insertion of an item of priority `p` before it (its
content, when it resolves, has priority at least `p`; unresolvable entries
are skipped, i.e. scanned past). -/
def notBelowPrio (contents : List (Nat × WorkspaceContent)) (p : ℚ) (x : Nat) : Bool :=
  match dictGet contents x with
  | some e => decide (p ≤ e.priority)
  | none => true

/-- Spec-side statement (amended C5) of the focus-ordering update: remove a
previous occurrence of the id; a Conscious item goes to the head; any other
item goes immediately before the first entry — of any attention level — whose
priority is strictly lower (appended when there is none, and after existing
entries of equal priority); the result is capped at 50 entries. -/
def focusInsertSpec (contents : List (Nat × WorkspaceContent)) (level : AttentionLevel)
    (p : ℚ) (cid : Nat) (focus : List Nat) : List Nat :=
  let base := focus.erase cid
  let inserted :=
    if level = .conscious then cid :: base
    else base.takeWhile (notBelowPrio contents p) ++ cid :: base.dropWhile (notBelowPrio contents p)
  inserted.take 50

/-! Helper lemmas about the dict model and the store operations. -/

theorem dictInsert_ne_nil {α β : Type} [DecidableEq α] (l : List (α × β)) (k : α) (v : β) :
    dictInsert l k v ≠ [] := by
  cases l with
  | nil => simp [dictInsert]
  | cons hd tl =>
      obtain ⟨k', v'⟩ := hd
      simp only [dictInsert]
      split <;> simp

theorem dictGet_dictInsert_self {α β : Type} [DecidableEq α] (l : List (α × β)) (k : α) (v : β) :
    dictGet (dictInsert l k v) k = some v := by
  induction l with
  | nil => simp [dictInsert, dictGet]
  | cons hd tl ih =>
      obtain ⟨k', v'⟩ := hd
      by_cases h : k' = k
      · simp [dictInsert, dictGet, h]
      · simp [dictInsert, dictGet, h, ih]

theorem dictInsert_of_dictGet_none {α β : Type} [DecidableEq α] {l : List (α × β)} {k : α}
    (v : β) (h : dictGet l k = none) : dictInsert l k v = l ++ [(k, v)] := by
  induction l with
  | nil => simp [dictInsert]
  | cons hd tl ih =>
      obtain ⟨k', v'⟩ := hd
      by_cases hk : k' = k
      · simp [dictGet, hk] at h
      · simp only [dictGet, hk, if_neg] at h
        simp [dictInsert, hk, ih h]

theorem mem_dictInsert {α β : Type} [DecidableEq α] {l : List (α × β)} {k : α} {v : β}
    {p : α × β} (h : p ∈ dictInsert l k v) : p ∈ l ∨ p = (k, v) := by
  induction l with
  | nil => simp [dictInsert] at h; simp [h]
  | cons hd tl ih =>
      obtain ⟨k', v'⟩ := hd
      simp only [dictInsert] at h
      split at h
      · rcases List.mem_cons.mp h with h1 | h1
        · right; exact h1
        · left; exact List.mem_cons_of_mem _ h1
      · rcases List.mem_cons.mp h with h1 | h1
        · left; simp [h1]
        · rcases ih h1 with h2 | h2
          · left; exact List.mem_cons_of_mem _ h2
          · right; exact h2

theorem dictGet_mem {α β : Type} [DecidableEq α] {l : List (α × β)} {k : α} {v : β}
    (h : dictGet l k = some v) : (k, v) ∈ l := by
  induction l with
  | nil => simp [dictGet] at h
  | cons hd tl ih =>
      obtain ⟨k', v'⟩ := hd
      by_cases hk : k' = k
      · simp [dictGet, hk] at h
        simp [hk, h]
      · simp only [dictGet, hk, if_neg] at h
        exact List.mem_cons_of_mem _ (ih h)

theorem updateConsciousnessMetrics_workspace_contents (s : GlobalWorkspaceSystem) (nowMs : Nat) :
    (s.updateConsciousnessMetrics nowMs).workspace_contents = s.workspace_contents := by
  unfold GlobalWorkspaceSystem.updateConsciousnessMetrics
  split <;> rfl

theorem updateConsciousnessMetrics_attention_focus (s : GlobalWorkspaceSystem) (nowMs : Nat) :
    (s.updateConsciousnessMetrics nowMs).attention_focus = s.attention_focus := by
  unfold GlobalWorkspaceSystem.updateConsciousnessMetrics
  split <;> rfl

theorem updateConsciousnessMetrics_inited (s : GlobalWorkspaceSystem) (nowMs : Nat) :
    (s.updateConsciousnessMetrics nowMs).inited = s.inited := by
  unfold GlobalWorkspaceSystem.updateConsciousnessMetrics
  split <;> rfl

theorem updateTemporalMetrics_temporal_events (t : TemporalConsciousnessSystem) (nowMs : Nat) :
    (t.updateTemporalMetrics nowMs).temporal_events = t.temporal_events := by
  unfold TemporalConsciousnessSystem.updateTemporalMetrics
  split <;> rfl

theorem updateTemporalMetrics_inited (t : TemporalConsciousnessSystem) (nowMs : Nat) :
    (t.updateTemporalMetrics nowMs).inited = t.inited := by
  unfold TemporalConsciousnessSystem.updateTemporalMetrics
  split <;> rfl

theorem insertTsDesc_length (acc : List TemporalEvent) (e : TemporalEvent) :
    (insertTsDesc acc e).length = acc.length + 1 := by
  induction acc with
  | nil => rfl
  | cons x xs ih =>
      simp only [insertTsDesc]
      split <;> simp [ih]

theorem sortByTimestampDesc_length (l : List TemporalEvent) :
    (sortByTimestampDesc l).length = l.length := by
  have key : ∀ (l : List TemporalEvent) (acc : List TemporalEvent),
      (l.foldl insertTsDesc acc).length = acc.length + l.length := by
    intro l
    induction l with
    | nil => intro acc; simp
    | cons x xs ih =>
        intro acc
        simp only [List.foldl_cons]
        rw [ih, insertTsDesc_length]
        simp only [List.length_cons]
        omega
  simpa [sortByTimestampDesc] using key l []

theorem recentEvents_ne_nil {t : TemporalConsciousnessSystem}
    (h : t.temporal_events ≠ []) : t.recentEvents ≠ [] := by
  have hlen : (sortByTimestampDesc (t.temporal_events.map Prod.snd)).length =
      t.temporal_events.length := by
    rw [sortByTimestampDesc_length, List.length_map]
  have hpos : 0 < t.temporal_events.length := List.length_pos.mpr h
  intro hnil
  have : t.recentEvents.length = 0 := by simp [hnil]
  rw [TemporalConsciousnessSystem.recentEvents, List.length_take, hlen] at this
  omega

theorem insertByPriority_eq (contents : List (Nat × WorkspaceContent)) (p : ℚ) (cid : Nat)
    (l : List Nat) :
    insertByPriority contents p cid l =
      l.takeWhile (notBelowPrio contents p) ++ cid :: l.dropWhile (notBelowPrio contents p) := by
  induction l with
  | nil => rfl
  | cons x xs ih =>
      simp only [insertByPriority]
      cases hg : dictGet contents x with
      | none =>
          have hnb : notBelowPrio contents p x = true := by simp [notBelowPrio, hg]
          simp [List.takeWhile_cons, List.dropWhile_cons, hnb, ih]
      | some ec =>
          by_cases hp : p > ec.priority
          · have hnb : notBelowPrio contents p x = false := by
              simp [notBelowPrio, hg]
              exact hp
            simp [List.takeWhile_cons, List.dropWhile_cons, hnb, hp]
          · have hnb : notBelowPrio contents p x = true := by
              simp [notBelowPrio, hg]
              exact not_lt.mp hp
            simp [List.takeWhile_cons, List.dropWhile_cons, hnb, hp, ih]

theorem truncate50_eq_take (l : List Nat) :
    (if 50 < l.length then l.take 50 else l) = l.take 50 := by
  split
  · rfl
  · exact (List.take_of_length_le (by omega)).symm

theorem add_content_coherence_level (s : GlobalWorkspaceSystem) (tms : Nat)
    (source_module content_type : String) (dataSize : Nat) (priority : ℚ) :
    ((s.add_content tms source_module content_type dataSize priority).2).coherence_level =
      s.coherence_level := rfl

theorem add_content_inited (s : GlobalWorkspaceSystem) (tms : Nat)
    (source_module content_type : String) (dataSize : Nat) (priority : ℚ) :
    ((s.add_content tms source_module content_type dataSize priority).2).inited = s.inited := rfl

theorem add_content_workspace_contents (s : GlobalWorkspaceSystem) (tms : Nat)
    (source_module content_type : String) (dataSize : Nat) (priority : ℚ) :
    ((s.add_content tms source_module content_type dataSize priority).2).workspace_contents =
      dictInsert s.workspace_contents tms
        ⟨tms, source_module, content_type, dataSize,
          determineAttentionLevel priority
            (calculateCoherence s.module_connections dataSize source_module),
          tms, priority,
          calculateCoherence s.module_connections dataSize source_module⟩ := rfl

theorem consciousContents_add_of_fresh {s : GlobalWorkspaceSystem} {tms : Nat}
    {source_module content_type : String} {dataSize : Nat} {priority : ℚ}
    (h : dictGet s.workspace_contents tms = none) :
    ((s.add_content tms source_module content_type dataSize priority).2).consciousContents =
      s.consciousContents ++
        (List.filter (fun c => c.attention_level = AttentionLevel.conscious)
          [⟨tms, source_module, content_type, dataSize,
            determineAttentionLevel priority
              (calculateCoherence s.module_connections dataSize source_module),
            tms, priority,
            calculateCoherence s.module_connections dataSize source_module⟩]) := by
  rw [GlobalWorkspaceSystem.consciousContents, add_content_workspace_contents,
    dictInsert_of_dictGet_none _ h]
  rw [List.map_append, List.filter_append]
  rfl

theorem updateConsciousnessMetrics_coherence_of_empty {s : GlobalWorkspaceSystem}
    (nowMs : Nat) (h : s.consciousContents = []) :
    (s.updateConsciousnessMetrics nowMs).coherence_level = s.coherence_level := by
  rw [GlobalWorkspaceSystem.consciousContents] at h
  unfold GlobalWorkspaceSystem.updateConsciousnessMetrics
  split
  · rfl
  · simp only [h, List.isEmpty_nil, if_true]

theorem updateConsciousnessMetrics_coherence_of_ne {s : GlobalWorkspaceSystem}
    (nowMs : Nat) (h : s.consciousContents ≠ []) :
    (s.updateConsciousnessMetrics nowMs).coherence_level =
      (s.consciousContents.map (fun c => c.coherence_score)).sum /
        (s.consciousContents.length : ℚ) := by
  rw [GlobalWorkspaceSystem.consciousContents] at h
  have hc : s.workspace_contents ≠ [] := by
    intro hnil
    exact h (by simp [hnil])
  unfold GlobalWorkspaceSystem.updateConsciousnessMetrics
  rw [if_neg hc]
  simp only [List.isEmpty_eq_true, h, if_neg, GlobalWorkspaceSystem.consciousContents,
    if_false]

theorem updateConsciousnessMetrics_consciousContents (s : GlobalWorkspaceSystem) (nowMs : Nat) :
    (s.updateConsciousnessMetrics nowMs).consciousContents = s.consciousContents := by
  rw [GlobalWorkspaceSystem.consciousContents, GlobalWorkspaceSystem.consciousContents,
    updateConsciousnessMetrics_workspace_contents]

theorem get_workspace_state_snd (s : GlobalWorkspaceSystem) (nowMs : Nat) :
    (s.get_workspace_state nowMs).2 =
      if s.inited = true then s.updateConsciousnessMetrics nowMs else s := by
  unfold GlobalWorkspaceSystem.get_workspace_state
  split <;> rfl

theorem getState_snd (t : TemporalConsciousnessSystem) (nowMs : Nat) :
    (t.getState nowMs).2 =
      if t.inited = true then t.updateTemporalMetrics nowMs else t := by
  unfold TemporalConsciousnessSystem.getState
  split <;> rfl

theorem recentEvents_updateTemporalMetrics (t : TemporalConsciousnessSystem) (nowMs : Nat) :
    (t.updateTemporalMetrics nowMs).recentEvents = t.recentEvents := by
  rw [TemporalConsciousnessSystem.recentEvents, TemporalConsciousnessSystem.recentEvents,
    updateTemporalMetrics_temporal_events]

theorem getState_fst_of_inited {t : TemporalConsciousnessSystem} (h : t.inited = true)
    (nowMs : Nat) : (t.getState nowMs).1 = some t.recentEvents := by
  unfold TemporalConsciousnessSystem.getState
  rw [if_pos h]
  show some ((t.updateTemporalMetrics nowMs).recentEvents) = some t.recentEvents
  rw [recentEvents_updateTemporalMetrics]

theorem updateAttentionFocus_length_le {contents : List (Nat × WorkspaceContent)}
    {focus : List Nat} {cid : Nat} (h : focus.length ≤ 50) :
    (updateAttentionFocus contents focus cid).length ≤ 50 := by
  unfold updateAttentionFocus
  cases hg : dictGet contents cid with
  | none => simpa using h
  | some content =>
      simp only
      split
      all_goals split
      all_goals first
        | (rw [List.length_take]; omega)
        | omega

theorem process_memory_strength {t : TemporalConsciousnessSystem} {tms : Nat}
    {d : ExperienceData} {sig : ℚ} {p : Nat × TemporalEvent}
    (hp : p ∈ ((t.process_temporal_experience tms d sig).2).temporal_events) :
    p ∈ t.temporal_events ∨ p.2.memory_strength = 1 := by
  rcases mem_dictInsert hp with h | h
  · left; exact h
  · right; rw [h]

theorem createFoundationalEvents_memory_strength {t : TemporalConsciousnessSystem}
    {t1 t2 t3 : Nat} {p : Nat × TemporalEvent}
    (hp : p ∈ ((t.createFoundationalEvents t1 t2 t3)).temporal_events) :
    p ∈ t.temporal_events ∨ p.2.memory_strength = 1 := by
  simp only [TemporalConsciousnessSystem.createFoundationalEvents] at hp
  rcases process_memory_strength hp with h | h
  · rcases process_memory_strength h with h2 | h2
    · rcases process_memory_strength h2 with h3 | h3
      · left; exact h3
      · right; exact h3
    · right; exact h2
  · right; exact h

theorem reachable_memory_strength {t : TemporalConsciousnessSystem}
    (ht : t.Reachable) : ∀ p ∈ t.temporal_events, p.2.memory_strength = 1 := by
  induction ht with
  | empty => intro p hp; simp [initialTCS] at hp
  | initStep nowMs t1 t2 t3 h ih =>
      intro p hp
      rcases createFoundationalEvents_memory_strength hp with h1 | h1
      · exact ih p h1
      · exact h1
  | processStep tms d sig h ih =>
      intro p hp
      rcases process_memory_strength hp with h1 | h1
      · exact ih p h1
      · exact h1
  | getStep nowMs h ih =>
      intro p hp
      rw [getState_snd] at hp
      split at hp
      · rw [updateTemporalMetrics_temporal_events] at hp
        exact ih p hp
      · exact ih p hp

theorem reachableFresh_coherence_zero {s : GlobalWorkspaceSystem}
    (h : s.ReachableFresh) : s.consciousContents = [] → s.coherence_level = 0 := by
  induction h with
  | empty => intro _; rfl
  | initStep h ih => intro hc; exact ih hc
  | addStep tms source_module content_type dataSize priority hfresh h ih =>
      intro hc
      rw [consciousContents_add_of_fresh hfresh] at hc
      rw [add_content_coherence_level]
      exact ih (List.append_eq_nil.mp hc).1
  | snapStep nowMs h ih =>
      intro hc
      rw [get_workspace_state_snd] at hc ⊢
      split at hc
      · rw [updateConsciousnessMetrics_consciousContents] at hc
        rename_i hi
        rw [if_pos hi, updateConsciousnessMetrics_coherence_of_empty nowMs hc]
        exact ih hc
      · rename_i hi
        rw [if_neg hi]
        exact ih hc

/-! Claim theorems. -/

/-- Claim C2: whenever the engine is Paused or EmergencyStopped, Ingest
(`process_experience`) returns the not-active error to the caller, leaves the
whole core state (hence both stores) unchanged, and in particular the
Snapshot total-items count is the same before and after the call. -/
theorem c2_ingest_rejected_when_not_active (c : ConsciousnessCore) (tms : Nat)
    (d : ExperienceData) (qms : Nat)
    (h : c.system_status = .paused ∨ c.system_status = .emergency_stop) :
    (c.process_experience tms d).1 = .notActive
    ∧ (c.process_experience tms d).2 = c
    ∧ ((((c.process_experience tms d).2).global_workspace.get_workspace_state qms).1).map
        (fun st => st.total_contents) =
      ((c.global_workspace.get_workspace_state qms).1).map (fun st => st.total_contents) := by
  have hne : c.system_status ≠ .active := by
    rcases h with h | h <;> simp [h]
  unfold ConsciousnessCore.process_experience
  rw [if_pos (Or.inr hne)]
  exact ⟨rfl, rfl, rfl⟩

/-- Witness for C2: a concrete paused core rejects an ingest and is left
unchanged. -/
theorem c2_witness :
    ((initialCore.pauseSystem).2.process_experience 5 foundationalData1).1 = .notActive
    ∧ ((initialCore.pauseSystem).2.process_experience 5 foundationalData1).2 =
        (initialCore.pauseSystem).2
    ∧ (((((initialCore.pauseSystem).2.process_experience 5
            foundationalData1).2).global_workspace.get_workspace_state 0).1).map
        (fun st => st.total_contents) =
      (((initialCore.pauseSystem).2.global_workspace.get_workspace_state 0).1).map
        (fun st => st.total_contents) :=
  c2_ingest_rejected_when_not_active (initialCore.pauseSystem).2 5 foundationalData1 0
    (Or.inl rfl)

/-- Claim C3 counterexample: admitting with priority 3/2 (outside [0,1])
stores the priority unclamped — the stored item carries priority 3/2, which
is not in [0,1], and it is classified from the raw value (Conscious, since
(3/2 + 3/10)/2 = 9/10 > 4/5), whereas the clamped priority 1 would classify
as Focused.  So the priority is not clamped into [0,1] before being stored
and used. -/
theorem c3_counterexample_priority_not_clamped :
    ((dictGet ((initialGWS.initSystem.add_content 7 "moduleA" "event" 1
          (3/2)).2).workspace_contents 7).map (fun c => (c.priority, c.attention_level)) =
        some (3/2, .conscious))
    ∧ ¬ ((3/2 : ℚ) ≤ 1)
    ∧ determineAttentionLevel 1 (3/10) = .focused := by
  refine ⟨by with_unfolding_all rfl, by norm_num, by with_unfolding_all rfl⟩

/-- Claim C3 (amended): admission with an out-of-range priority still succeeds
(`add_content` returns the new id and the item is stored), but the priority is
stored and used exactly as supplied — it is not clamped into [0,1]; the
attention level is computed from the raw value. -/
theorem c3_amended_admission_succeeds_priority_stored_raw (s : GlobalWorkspaceSystem)
    (tms : Nat) (source_module content_type : String) (dataSize : Nat) (priority : ℚ)
    (_hp : priority < 0 ∨ 1 < priority) :
    (s.add_content tms source_module content_type dataSize priority).1 = tms
    ∧ dictGet ((s.add_content tms source_module content_type dataSize
          priority).2).workspace_contents tms =
        some ⟨tms, source_module, content_type, dataSize,
          determineAttentionLevel priority
            (calculateCoherence s.module_connections dataSize source_module),
          tms, priority,
          calculateCoherence s.module_connections dataSize source_module⟩ :=
  ⟨rfl, dictGet_dictInsert_self s.workspace_contents tms _⟩

/-- Witness for C3 (amended) at priority 3/2 on the initialized workspace. -/
theorem c3_witness :
    (initialGWS.initSystem.add_content 7 "moduleA" "event" 1 (3/2)).1 = 7
    ∧ dictGet ((initialGWS.initSystem.add_content 7 "moduleA" "event" 1
          (3/2)).2).workspace_contents 7 =
        some ⟨7, "moduleA", "event", 1,
          determineAttentionLevel (3/2)
            (calculateCoherence initialGWS.initSystem.module_connections 1 "moduleA"),
          7, 3/2,
          calculateCoherence initialGWS.initSystem.module_connections 1 "moduleA"⟩ :=
  c3_amended_admission_succeeds_priority_stored_raw initialGWS.initSystem 7 "moduleA"
    "event" 1 (3/2) (Or.inr (by norm_num))

/-- Claim C4 (code bug): the ids are derived from the millisecond clock, so
two admissions (or two temporal recordings) in the same millisecond receive
the SAME id and the second silently overwrites the first — after two
`add_content` calls at clock reading 5 the store holds a single item, the one
admitted second; likewise two `process_temporal_experience` calls at the same
reading leave a single event.  This contradicts the claimed invariant that
every creation receives a fresh id and never overwrites. -/
theorem c4_code_bug_same_millisecond_id_collision :
    ((initialGWS.initSystem.add_content 5 "moduleA" "event" 10 1).1 =
        (((initialGWS.initSystem.add_content 5 "moduleA" "event" 10 1).2).add_content 5
          "moduleB" "event2" 1 0).1)
    ∧ ((((initialGWS.initSystem.add_content 5 "moduleA" "event" 10 1).2).add_content 5
          "moduleB" "event2" 1 0).2).workspace_contents.length = 1
    ∧ ((dictGet ((((initialGWS.initSystem.add_content 5 "moduleA" "event" 10 1).2).add_content
            5 "moduleB" "event2" 1 0).2).workspace_contents 5).map (fun c => c.source_module) =
        some "moduleB")
    ∧ (((initialTCS.process_temporal_experience 5 foundationalData1
          1).2.process_temporal_experience 5 foundationalData2 (9/10)).2).temporal_events.length
        = 1 :=
  ⟨by with_unfolding_all rfl, by with_unfolding_all rfl, by with_unfolding_all rfl,
    by with_unfolding_all rfl⟩

/-- Claim C6: the concrete boundary scenario.  Admitting from unknown producer
"moduleA" a one-key payload with priority 0.9 yields coherence
(min(1, 1/10) + 0.5)/2 = 3/10 and combined (9/10 + 3/10)/2 = 3/5, classified
Peripheral (not Focused); and the classification boundaries are strict:
combined exactly 4/5 is not Conscious, exactly 3/5 is not Focused, exactly
2/5 is not Peripheral. -/
theorem c6_boundary_scenario_peripheral :
    calculateCoherence initialGWS.initSystem.module_connections 1 "moduleA" = 3/10
    ∧ ((dictGet ((initialGWS.initSystem.add_content 1 "moduleA" "event" 1
          (9/10)).2).workspace_contents 1).map (fun c => (c.coherence_score, c.attention_level)) =
        some (3/10, .peripheral))
    ∧ determineAttentionLevel (9/10) (3/10) = .peripheral
    ∧ determineAttentionLevel (4/5) (4/5) = .focused
    ∧ determineAttentionLevel (3/5) (3/5) = .peripheral
    ∧ determineAttentionLevel (2/5) (2/5) = .background :=
  ⟨by with_unfolding_all rfl, by with_unfolding_all rfl, by with_unfolding_all rfl,
    by with_unfolding_all rfl, by with_unfolding_all rfl, by with_unfolding_all rfl⟩

/-- Claim C7: the relevance predicate
`(significance * memoryStrength) / (1 + temporalDistance) > threshold` is
monotone non-increasing in the temporal distance (for nonnegative
significance, memory strength and distances) and monotone non-decreasing in
significance and in memory strength. -/
theorem c7_isRelevant_monotonicity (sig sig' mem mem' d d' th : ℚ)
    (hsig : 0 ≤ sig) (hmem : 0 ≤ mem) (hd : 0 ≤ d) (hd' : 0 ≤ d') :
    (d' ≤ d → isRelevant sig mem d th = true → isRelevant sig mem d' th = true)
    ∧ (sig ≤ sig' → isRelevant sig mem d th = true → isRelevant sig' mem d th = true)
    ∧ (mem ≤ mem' → isRelevant sig mem d th = true → isRelevant sig mem' d th = true) := by
  have hpos : (0 : ℚ) < 1 + d := by linarith
  have hpos' : (0 : ℚ) < 1 + d' := by linarith
  refine ⟨?_, ?_, ?_⟩
  · intro hdd hrel
    simp only [isRelevant, relevanceScore, decide_eq_true_eq] at hrel ⊢
    refine lt_of_lt_of_le hrel ?_
    have hnum : 0 ≤ sig * mem := mul_nonneg hsig hmem
    gcongr
  · intro hss hrel
    simp only [isRelevant, relevanceScore, decide_eq_true_eq] at hrel ⊢
    refine lt_of_lt_of_le hrel ?_
    gcongr
  · intro hmm hrel
    simp only [isRelevant, relevanceScore, decide_eq_true_eq] at hrel ⊢
    refine lt_of_lt_of_le hrel ?_
    gcongr

/-- Witness for C7: at significance 1, memory strength 1, threshold 1/2, the
predicate holds at distance 1/2 and (by the theorem) at distance 0. -/
theorem c7_witness : isRelevant 1 1 0 (1/2) = true :=
  (c7_isRelevant_monotonicity 1 1 1 1 (1/2) 0 (1/2) (by norm_num) (by norm_num)
      (by norm_num) (by norm_num)).1 (by norm_num) (by with_unfolding_all rfl)

/-- Claim C10: for every reachable workspace state (in particular after any
sequence of admissions starting from the empty workspace), the attention
focus ordering holds at most 50 entries. -/
theorem c10_focus_ordering_bounded (s : GlobalWorkspaceSystem) (h : s.Reachable) :
    s.attention_focus.length ≤ 50 := by
  induction h with
  | empty => simp [initialGWS]
  | initStep h ih => exact ih
  | addStep tms source_module content_type dataSize priority h ih =>
      exact updateAttentionFocus_length_le ih
  | snapStep nowMs h ih =>
      rw [get_workspace_state_snd]
      split
      · rw [updateConsciousnessMetrics_attention_focus]; exact ih
      · exact ih

/-- Witness for C10: a concrete admitted state has at most 50 focus entries. -/
theorem c10_witness :
    ((initialGWS.initSystem.add_content 1 "moduleA" "event" 1 (1/2)).2).attention_focus.length
      ≤ 50 :=
  c10_focus_ordering_bounded _
    (GlobalWorkspaceSystem.Reachable.addStep 1 "moduleA" "event" 1 (1/2)
      (GlobalWorkspaceSystem.Reachable.initStep GlobalWorkspaceSystem.Reachable.empty))

/-- Claim C1 counterexample: starting from a freshly initialized core (a
reachable state), perform EmergencyStop and then the forced reinitialize
(resume while in `emergency_stop`).  The recent-events query then returns six
events — the foundational events are re-created by `initialize`, which never
clears the temporal store — so `RecentEvents` is NOT empty as claimed. -/
theorem c1_counterexample_recent_events_not_empty :
    ((((((initialCore.initSystem 0 0 1 2).2.emergencyStop).2.resumeSystem 10 10 11
          12).2).temporal_consciousness.getState 12).1).map (fun evs => evs.length) = some 6
    ∧ (6 : Nat) ≠ 0 :=
  ⟨by with_unfolding_all rfl, by norm_num⟩

/-- Claim C1 (amended): EmergencyStop followed by the forced reinitialize does
NOT empty the stores: the workspace contents dict is preserved verbatim (so
Snapshot's totalItems equals the pre-stop item count, not necessarily 0), and
the temporal store is re-seeded with foundational events, so the
recent-events query returns a nonempty sequence. -/
theorem c1_amended_reinit_preserves_workspace_and_reseeds_events
    (c : ConsciousnessCore) (nowMs t1 t2 t3 qms rms : Nat) :
    ((((c.emergencyStop).2.resumeSystem nowMs t1 t2 t3).2).global_workspace.workspace_contents
        = c.global_workspace.workspace_contents)
    ∧ ((((((c.emergencyStop).2.resumeSystem nowMs t1 t2
            t3).2).global_workspace.get_workspace_state qms).1).map (fun st => st.total_contents)
        = some c.global_workspace.workspace_contents.length)
    ∧ ∃ evs, ((((c.emergencyStop).2.resumeSystem nowMs t1 t2
          t3).2).temporal_consciousness.getState rms).1 = some evs ∧ evs ≠ [] := by
  have hresume : ((c.emergencyStop).2.resumeSystem nowMs t1 t2 t3).2 =
      ((c.emergencyStop).2.initSystem nowMs t1 t2 t3).2 := rfl
  rw [hresume]
  refine ⟨rfl, ?_, ?_⟩
  · rw [GlobalWorkspaceSystem.get_workspace_state]
    rw [if_pos (show (((c.emergencyStop).2.initSystem nowMs t1 t2
      t3).2).global_workspace.inited = true from rfl)]
    show some ((((c.emergencyStop).2.initSystem nowMs t1 t2
      t3).2.global_workspace.updateConsciousnessMetrics qms).workspace_contents.length) = _
    rw [updateConsciousnessMetrics_workspace_contents]
    rfl
  · refine ⟨_, getState_fst_of_inited rfl rms, ?_⟩
    apply recentEvents_ne_nil
    show dictInsert _ _ _ ≠ []
    exact dictInsert_ne_nil _ _ _

/-- Claim C5 counterexample: admit a Conscious item (id 1: known producer
strength 0.8, ten-key payload, priority 4/5 — combined 17/20 > 4/5), then a
Peripheral item (id 2: unknown producer, one-key payload, priority 9/10 —
combined 3/5).  The priority scan compares against ALL entries, including the
Conscious head, so the non-Conscious item 2 (priority 9/10 > 4/5) is inserted
at position 0 — a Conscious item is present in the ordering but the most
recently admitted Conscious item does NOT lead, refuting the claimed
insertion rule "by descending priority only among items of equal-or-lower
rank". -/
theorem c5_counterexample_peripheral_item_displaces_conscious_head :
    ((((initialGWS.initSystem.add_content 1 "temporal_consciousness" "k" 10
          (4/5)).2).add_content 2 "moduleA" "k" 1 (9/10)).2).attention_focus = [2, 1]
    ∧ ((dictGet ((((initialGWS.initSystem.add_content 1 "temporal_consciousness" "k" 10
            (4/5)).2).add_content 2 "moduleA" "k" 1 (9/10)).2).workspace_contents 1).map
          (fun c => c.attention_level) = some .conscious)
    ∧ ((dictGet ((((initialGWS.initSystem.add_content 1 "temporal_consciousness" "k" 10
            (4/5)).2).add_content 2 "moduleA" "k" 1 (9/10)).2).workspace_contents 2).map
          (fun c => c.attention_level) = some .peripheral) :=
  ⟨by with_unfolding_all rfl, by with_unfolding_all rfl, by with_unfolding_all rfl⟩

/-- Claim C5 (amended): the focus-ordering update rule, as the code implements
it.  An item classified Conscious is inserted at position 0.  Every other
item is inserted immediately before the first entry already in the ordering —
of ANY attention level, Conscious entries included, not only entries of
equal-or-lower rank — whose priority is strictly lower (appended at the end
when there is none), stable on priority ties (existing equal-priority entries
stay in front).  The result is capped at 50 entries. -/
theorem c5_amended_focus_insertion_rule (contents : List (Nat × WorkspaceContent))
    (focus : List Nat) (cid : Nat) (content : WorkspaceContent)
    (hc : dictGet contents cid = some content) :
    updateAttentionFocus contents focus cid =
      focusInsertSpec contents content.attention_level content.priority cid focus
    ∧ (content.attention_level = .conscious →
        (updateAttentionFocus contents focus cid).head? = some cid) := by
  have hmain : updateAttentionFocus contents focus cid =
      focusInsertSpec contents content.attention_level content.priority cid focus := by
    unfold updateAttentionFocus focusInsertSpec
    rw [hc]
    by_cases hl : content.attention_level = .conscious
    · simp only [hl, if_true]
      exact truncate50_eq_take _
    · simp only [hl, if_false]
      rw [insertByPriority_eq]
      exact truncate50_eq_take _
  refine ⟨hmain, ?_⟩
  intro hl
  rw [hmain]
  unfold focusInsertSpec
  simp only [hl, if_true]
  rw [show (50 : Nat) = 49 + 1 from rfl, List.take_succ_cons]
  rfl

/-- Witness for C5 (amended) on a concrete store: inserting the Peripheral
item with id 2 and priority 1/2 into the focus ordering [1]. -/
theorem c5_witness :
    updateAttentionFocus
        [(1, ⟨1, "a", "k", 0, .conscious, 1, 1, 0⟩),
         (2, ⟨2, "b", "k", 0, .peripheral, 2, 1/2, 0⟩)] [1] 2 =
      focusInsertSpec
        [(1, ⟨1, "a", "k", 0, .conscious, 1, 1, 0⟩),
         (2, ⟨2, "b", "k", 0, .peripheral, 2, 1/2, 0⟩)]
        .peripheral (1/2) 2 [1] :=
  (c5_amended_focus_insertion_rule
    [(1, ⟨1, "a", "k", 0, .conscious, 1, 1, 0⟩),
     (2, ⟨2, "b", "k", 0, .peripheral, 2, 1/2, 0⟩)] [1] 2
    ⟨2, "b", "k", 0, .peripheral, 2, 1/2, 0⟩ (by with_unfolding_all rfl)).1

/-- Claim C8 counterexample: admit a Conscious item at clock reading 5, take a
snapshot (coherence level becomes 9/10), then admit at the SAME reading a
Background item — the id collides and overwrites the Conscious item, so no
Conscious item remains; the next snapshot still reports coherence level 9/10,
not 0 as the claim requires. -/
theorem c8_counterexample_stale_coherence_after_overwrite :
    (((((((initialGWS.initSystem.add_content 5 "temporal_consciousness" "k" 10
            1).2.get_workspace_state 5).2).add_content 5 "moduleA" "k2" 0
            0).2.get_workspace_state 5).1).map (fun st => st.coherence_level) = some (9/10))
    ∧ ((((((initialGWS.initSystem.add_content 5 "temporal_consciousness" "k" 10
            1).2.get_workspace_state 5).2).add_content 5 "moduleA" "k2" 0
            0).2).consciousContents = [])
    ∧ (9/10 : ℚ) ≠ 0 :=
  ⟨by with_unfolding_all rfl, by with_unfolding_all rfl, by norm_num⟩

/-- Claim C8 (amended): for every reachable workspace state in which no two
admissions shared a clock millisecond (so no id collision ever overwrote an
item), the coherence level reported by the snapshot equals the arithmetic
mean of the coherence scores of the currently Conscious items, and 0 when
there is none. -/
theorem c8_amended_snapshot_coherence_mean_of_conscious (s : GlobalWorkspaceSystem)
    (h : s.ReachableFresh) (hi : s.inited = true) (nowMs : Nat) :
    (((s.get_workspace_state nowMs).1).map (fun st => st.coherence_level)) =
      some (if s.consciousContents = [] then 0
        else (s.consciousContents.map (fun c => c.coherence_score)).sum /
          (s.consciousContents.length : ℚ)) := by
  rw [GlobalWorkspaceSystem.get_workspace_state, if_pos hi]
  show some ((s.updateConsciousnessMetrics nowMs).coherence_level) = _
  by_cases hc : s.consciousContents = []
  · rw [updateConsciousnessMetrics_coherence_of_empty nowMs hc,
      reachableFresh_coherence_zero h hc, if_pos hc]
  · rw [updateConsciousnessMetrics_coherence_of_ne nowMs hc, if_neg hc]

/-- Witness for C8 (amended) on the freshly initialized workspace. -/
theorem c8_witness :
    ((initialGWS.initSystem.get_workspace_state 0).1).map (fun st => st.coherence_level) =
      some (if initialGWS.initSystem.consciousContents = [] then 0
        else (initialGWS.initSystem.consciousContents.map (fun c => c.coherence_score)).sum /
          (initialGWS.initSystem.consciousContents.length : ℚ)) :=
  c8_amended_snapshot_coherence_mean_of_conscious initialGWS.initSystem
    (GlobalWorkspaceSystem.ReachableFresh.initStep GlobalWorkspaceSystem.ReachableFresh.empty)
    rfl 0

/-- Claim C9: in every reachable temporal store, every stored event has
memory strength exactly 1 (it is created at 1.0 and no operation ever
modifies it — in particular it is trivially monotonically non-increasing),
so an event's relevance depends only on its significance and its temporal
distance. -/
theorem c9_memory_strength_pinned_at_one (t : TemporalConsciousnessSystem)
    (ht : t.Reachable) (k : Nat) (e : TemporalEvent)
    (he : dictGet t.temporal_events k = some e) :
    e.memory_strength = 1
    ∧ ∀ refMs th, e.is_temporally_relevant refMs th =
        isRelevant e.significance 1 (e.calculate_temporal_distance refMs) th := by
  have h1 : e.memory_strength = 1 :=
    reachable_memory_strength ht (k, e) (dictGet_mem he)
  refine ⟨h1, ?_⟩
  intro refMs th
  rw [TemporalEvent.is_temporally_relevant, h1]

/-- Witness for C9: the foundational event stored under clock reading 2 in a
freshly initialized temporal store has memory strength 1. -/
theorem c9_witness :
    ((dictGet (initialTCS.initSystem 0 0 1 2).temporal_events 2).map
      (fun e => e.memory_strength)) = some 1 := by
  have hsome : (dictGet (initialTCS.initSystem 0 0 1 2).temporal_events 2).isSome = true := by
    with_unfolding_all rfl
  cases hg : dictGet (initialTCS.initSystem 0 0 1 2).temporal_events 2 with
  | none => rw [hg] at hsome; exact absurd hsome (by simp)
  | some e =>
      have h := (c9_memory_strength_pinned_at_one _
        (TemporalConsciousnessSystem.Reachable.initStep 0 0 1 2
          TemporalConsciousnessSystem.Reachable.empty) 2 e hg).1
      simp [h]
